import Mathlib

/-!
# Verification of the BIDSonym de-identification pipeline

A shallow embedding of the core of the BIDSonym repository
(`bidsonym/utils.py`, `bidsonym/deeid.py`, `bidsonym/run_deeid.py`,
supporting modules), together with theorems settling the behavioural
claims about file relocation, metadata redaction, participant
resolution, configuration validation, pipeline step ordering, the
T2w secondary-modality handling and report generation.

Modelling conventions:
* the filesystem is a finite association list from path strings to file
  contents; directories are implicit (`os.makedirs(..., exist_ok=True)`
  never fails and has no observable effect in this model);
* Python exceptions are values of `PyExn`; a raised exception aborts the
  enclosing run, so every stateful operation returns the filesystem at
  the moment of the raise together with the exception;
* external collaborators (the pybids `BIDSLayout`, the brain-extraction
  and defacing executables, nilearn plotting) are treated as opaque
  succeeding operations at their interface, exactly as the code invokes
  them: path construction done by `BIDSLayout.build_path` is supplied as
  record fields, external tools deterministically write their declared
  output path;
* numeric image data is modelled over `ℚ` (the claims about it are exact
  algebraic identities, not floating-point ones).
-/

/-- A Python exception value, restricted to the exception classes that the
embedded code can raise. -/
inductive PyExn where
  /-- `raise ValueError(msg)` -/
  | valueError (msg : String)
  /-- `raise Exception(msg)` -/
  | genericExc (msg : String)
  /-- `raise RuntimeError(msg)` -/
  | runtimeError (msg : String)
  /-- `FileNotFoundError` from an I/O call on a missing path -/
  | fileNotFoundError (path : String)
  /-- `AttributeError` from accessing a nonexistent attribute -/
  | attributeError (msg : String)
  /-- `NameError` from reading a local variable that was never bound -/
  | nameError (name : String)
  /-- `TypeError` (wrong arity, subscripting `None`, ...) -/
  | typeError (msg : String)
deriving DecidableEq, Repr

/-- Contents of one file in the dataset tree.  Image-like outputs carry a
provenance tag describing which operation produced them from which input;
metadata sidecars carry their parsed JSON object (a key-value list, values
rendered as strings). -/
inductive FileData where
  /-- a NIfTI volume (`.nii.gz`) -/
  | nifti (desc : String)
  /-- a JSON metadata sidecar -/
  | json (meta : List (String × String))
  /-- a static overlay plot -/
  | png (desc : String)
  /-- an animated preview -/
  | gif (desc : String)
  /-- a tabular metadata report -/
  | csv (desc : String)
deriving DecidableEq, Repr

/-- The filesystem: an association list from absolute paths to contents. -/
abbrev FS := List (String × FileData)

/-- Look up the contents stored at a path. -/
def fsLookup : FS → String → Option FileData
  | [], _ => none
  | (p, d) :: rest, q => if p = q then some d else fsLookup rest q

/-- Write contents at a path, replacing any previous entry. -/
def fsInsert : FS → String → FileData → FS
  | [], q, d' => [(q, d')]
  | (p, d) :: rest, q, d' =>
      if p = q then (p, d') :: rest else (p, d) :: fsInsert rest q d'

/-- Remove the entry at a path. -/
def fsErase : FS → String → FS
  | [], _ => []
  | (p, d) :: rest, q => if p = q then fsErase rest q else (p, d) :: fsErase rest q

@[simp] theorem fsLookup_fsInsert_self (fs : FS) (q : String) (d : FileData) :
    fsLookup (fsInsert fs q d) q = some d := by
  induction fs with
  | nil => simp [fsInsert, fsLookup]
  | cons hd tl ih =>
      obtain ⟨p, c⟩ := hd
      by_cases h : p = q <;> simp [fsInsert, fsLookup, h, ih]

theorem fsLookup_fsInsert_ne (fs : FS) (q r : String) (d : FileData) (h : q ≠ r) :
    fsLookup (fsInsert fs q d) r = fsLookup fs r := by
  induction fs with
  | nil => simp [fsInsert, fsLookup, h]
  | cons hd tl ih =>
      obtain ⟨p, c⟩ := hd
      by_cases hp : p = q
      · subst hp; simp [fsInsert, fsLookup, h]
      · by_cases hr : p = r <;> simp [fsInsert, fsLookup, hp, hr, ih, Ne.symm h]

theorem fsLookup_fsErase_ne (fs : FS) (q r : String) (h : q ≠ r) :
    fsLookup (fsErase fs q) r = fsLookup fs r := by
  induction fs with
  | nil => simp [fsErase]
  | cons hd tl ih =>
      obtain ⟨p, c⟩ := hd
      by_cases hp : p = q
      · subst hp; simp [fsErase, fsLookup, h, ih]
      · by_cases hr : p = r <;> simp [fsErase, fsLookup, hp, hr, ih, Ne.symm h]

/-! ## `bidsonym.utils.move_file` (utils.py:18-22)

```python
def move_file(source_path, destination_path):
    os.makedirs(os.path.dirname(destination_path), exist_ok=True)
    shutil.move(source_path, destination_path)
```

`os.makedirs(..., exist_ok=True)` always succeeds.  `shutil.move` raises
`FileNotFoundError` when the source is missing; when the destination names
an existing regular file it silently replaces it (POSIX `rename`
semantics / `copy2` + unlink).  No check of the destination is performed
anywhere and no `AlreadyQuarantinedError` class exists in the repository. -/
def move_file (fs : FS) (source_path destination_path : String) :
    Except PyExn FS :=
  match fsLookup fs source_path with
  | none => .error (.fileNotFoundError source_path)
  | some c => .ok (fsInsert (fsErase fs source_path) destination_path c)

/-- `bidsonym.utils.copy_no_deid` (utils.py:25-34): relocates a file into
the `sourcedata/bidsonym` quarantine tree at the path the quarantine
`BIDSLayout` builds from the file's entities (supplied as `qpath`, since
`BIDSLayout.build_path` is an external collaborator), returning that
path. -/
def copy_no_deid (fs : FS) (path qpath : String) : Except PyExn (FS × String) :=
  match move_file fs path qpath with
  | .error e => .error e
  | .ok fs' => .ok (fs', qpath)

/-! ### Claim C1 -/

/-- State after one completed BIDSonym run: the original T1w (contents
`v1`) sits in quarantine and the canonical path holds the defaced
replacement (contents `v2`). -/
def fsAfterFirstRun : FS :=
  [("/b/sub-01/anat/sub-01_T1w.nii.gz", .nifti "v2"),
   ("/b/sourcedata/bidsonym/sub-01/anat/sub-01_T1w.nii.gz", .nifti "v1")]

/-- C1, counterexample.  Invoking relocation a second time on an original
path whose quarantine slot is already occupied does NOT raise: `move_file`
returns successfully and the quarantine file now holds the canonical
path's current contents (`v2`) instead of the previously quarantined
original (`v1`).  The quarantine file is silently overwritten, refuting
the claimed fatal `AlreadyQuarantinedError` (no such class exists in the
repository). -/
theorem move_file_second_relocation_counterexample :
    move_file fsAfterFirstRun "/b/sub-01/anat/sub-01_T1w.nii.gz"
        "/b/sourcedata/bidsonym/sub-01/anat/sub-01_T1w.nii.gz"
      = .ok [("/b/sourcedata/bidsonym/sub-01/anat/sub-01_T1w.nii.gz", .nifti "v2")]
    ∧ fsLookup fsAfterFirstRun "/b/sourcedata/bidsonym/sub-01/anat/sub-01_T1w.nii.gz"
      = some (.nifti "v1") := by
  constructor <;> rfl

/-- C1, amended.  Whenever the source path exists, `move_file` succeeds —
regardless of whether the destination already holds a quarantined file —
and afterwards the destination holds the source's contents: a re-run
silently overwrites the quarantine file rather than raising. -/
theorem move_file_silent_overwrite (fs : FS) (src dst : String) (c : FileData)
    (h : fsLookup fs src = some c) :
    ∃ fs', move_file fs src dst = .ok fs' ∧ fsLookup fs' dst = some c := by
  refine ⟨fsInsert (fsErase fs src) dst c, ?_, ?_⟩
  · simp [move_file, h]
  · exact fsLookup_fsInsert_self _ _ _

/-- Witness for `move_file_silent_overwrite` at the concrete post-first-run
state. -/
theorem move_file_silent_overwrite_witness :
    ∃ fs', move_file fsAfterFirstRun "/b/sub-01/anat/sub-01_T1w.nii.gz"
          "/b/sourcedata/bidsonym/sub-01/anat/sub-01_T1w.nii.gz" = .ok fs'
        ∧ fsLookup fs' "/b/sourcedata/bidsonym/sub-01/anat/sub-01_T1w.nii.gz"
          = some (.nifti "v2") :=
  move_file_silent_overwrite fsAfterFirstRun _ _ (.nifti "v2") rfl

/-! ## Path-string helpers (`os.path`)

Faithful models of the `os.path` operations used by the code.  Paths are
plain strings with `/` separators. -/

/-- Split a character list at every occurrence of the separator `c`
(`"a/b/c" ↦ ["a","b","c"]`, preserving empty components). -/
def splitOnChar (c : Char) : List Char → List (List Char)
  | [] => [[]]
  | x :: xs =>
      match splitOnChar c xs with
      | [] => if x = c then [[], []] else [[x]]
      | y :: ys => if x = c then [] :: y :: ys else (x :: y) :: ys

/-- Join character lists with the separator `c`. -/
def joinChar (c : Char) : List (List Char) → List Char
  | [] => []
  | [x] => x
  | x :: xs => x ++ c :: joinChar c xs

/-- The components of a `/`-separated path. -/
def pathParts (s : String) : List (List Char) := splitOnChar '/' s.toList

/-- The final path component (the part after the last `/`). -/
def basename (s : String) : String := String.mk ((pathParts s).getLastD s.toList)

/-- Everything before the last `/` (empty when there is no `/`). -/
def dirname (s : String) : String :=
  String.mk (joinChar '/' (pathParts s).dropLast)

/-- Split a path component at its last extension dot.  As in
`os.path.splitext`, leading dots of the component never start an
extension. -/
def splitExtBase (cs : List Char) : List Char × List Char :=
  let lead := cs.takeWhile (· = '.')
  let rest := cs.drop lead.length
  let afterRev := rest.reverse.takeWhile (· ≠ '.')
  if afterRev.length = rest.length then (cs, [])
  else
    let cut := rest.length - afterRev.length - 1
    (lead ++ rest.take cut, rest.drop cut)

/-- `os.path.splitext`: split a path into root and extension. -/
def splitext (s : String) : String × String :=
  let parts := pathParts s
  let (r, e) := splitExtBase (parts.getLastD s.toList)
  (String.mk (joinChar '/' (parts.dropLast ++ [r])), String.mk e)

/-- One iteration of `p = os.path.splitext(p)[0]`, repeated while an
extension remains (the `while os.path.splitext(...)` loops in deeid.py
and defacing_algorithms.py).  The fuel is the string length: each strip
removes at least the one-character dot, so `s.length` iterations always
reach the fixed point. -/
def stripExtsFuel : Nat → String → String
  | 0, s => s
  | n + 1, s =>
      let (r, e) := splitext s
      if e = "" then s else stripExtsFuel n r

/-- Strip every extension from a path (`"a/b.nii.gz" ↦ "a/b"`). -/
def stripExts (s : String) : String := stripExtsFuel s.length s

/-- The slice `s[s.rfind('/') + 1 : s.rfind(needle)]` used by
utils.py:211-212 and utils.py:270-271 (with `needle = '.nii'`) and by
`rename_non_deid` (with `'.json'` / `'.nii.gz'`): the basename truncated
at the last occurrence of `needle`.  When `needle` does not occur,
`rfind` returns `-1`, so the Python slice ends one character before the
end of the string. -/
def nameUpToLast (needle s : String) : String :=
  let b := (basename s).toList
  let n := needle.toList
  match ((List.range (b.length + 1)).filter
      (fun i => List.isPrefixOf n (b.drop i))).getLast? with
  | none => String.mk b.dropLast
  | some i => String.mk (b.take i)

/-- Python's substring test `needle in hay`. -/
def strContains (hay needle : String) : Bool :=
  (List.range (hay.toList.length + 1)).any
    (fun i => List.isPrefixOf needle.toList (hay.toList.drop i))

example : splitext "/x/a.nii.gz" = ("/x/a.nii", ".gz") := by decide
example : stripExts "/x/a.nii.gz" = "/x/a" := by decide
example : basename "/x/a.nii.gz" = "a.nii.gz" := by decide
example : dirname "/x/a.nii.gz" = "/x" := by decide
example : nameUpToLast ".nii" "/x/a.nii.gz" = "a" := by decide
example : strContains "InstitutionName" "Name" = true := by decide

/-! ## `bidsonym.utils.del_meta_data` (utils.py:124-162)

```python
json_files = layout.get(subject=subject_label, suffix='json')
for file in json_files:
    with open(file.path, 'r') as json_file:
        meta_data = json.load(json_file)
        for field in fields_del:
            if field in meta_data:
                meta_data[field] = 'deleted_by_bidsonym'
                edited = True
    if edited:
        nodeied_file_path = nodeid_layout.build_path(file.entities)
        move_file(file_path, nodeied_file_path)
        with open(file_path, 'w') as json_output_file:
            json.dump(meta_data, json_output_file, indent=4)
```

The sidecar list produced by the external `layout.get` call and the
quarantine paths produced by `nodeid_layout.build_path` are supplied as a
list of `(path, quarantine path)` pairs. -/

/-- The redaction sentinel written in place of deleted values. -/
def sentinel : String := "deleted_by_bidsonym"

/-- The inner `for field in fields_del` loop on a parsed JSON object: the
value of every key occurring in `fields_del` becomes the sentinel; keys
and field order are untouched. -/
def editMeta (fields_del : List String) (meta : List (String × String)) :
    List (String × String) :=
  meta.map (fun kv => if kv.1 ∈ fields_del then (kv.1, sentinel) else kv)

/-- Whether the loop set `edited = True`: some requested field is present. -/
def metaEdited (fields_del : List String) (meta : List (String × String)) : Bool :=
  fields_del.any (fun f => meta.any (fun kv => kv.1 = f))

/-- Event trace of an embedded run (one constructor per observable
pipeline step). -/
inductive Event where
  /-- `del_meta_data` rewrote the sidecar at `p` -/
  | delMetaEdit (p : String)
  /-- `move_file`/`copy_no_deid` moved `src` to the quarantine path `dst` -/
  | relocate (src dst : String)
  /-- brain extraction ran on `img`, writing `mask` -/
  | extract (img mask : String)
  /-- a defacing tool consumed `src` and wrote `dst` -/
  | deface (src dst : String)
  /-- `plot_overlay` wrote the overlay `p` -/
  | overlay (p : String)
  /-- `nifti_to_gif` wrote the preview for `img` -/
  | gifReport (img : String)
  /-- logged warning: secondary modality `t2` missing for `t1`, skipped -/
  | warnNoT2 (t2 t1 : String)
  /-- `check_meta_data` inspected subject `s` and wrote its CSV reports -/
  | checkMeta (s : String)
  /-- `create_graphics` produced the QC graphics for subject `s` -/
  | graphics (s : String)
deriving DecidableEq, Repr

/-- The body of the `for file in json_files` loop for the sidecar at `p`
with quarantine path `qp`. -/
def delMetaFile (fields_del : List String) (p qp : String) (fs : FS) :
    FS × List Event × Option PyExn :=
  match fsLookup fs p with
  | some (.json m) =>
      if metaEdited fields_del m then
        match move_file fs p qp with
        | .error e => (fs, [], some e)
        | .ok fs1 =>
            (fsInsert fs1 p (.json (editMeta fields_del m)), [.delMetaEdit p], none)
      else (fs, [], none)
  | some _ => (fs, [], some (.valueError ("json.load: not a JSON document: " ++ p)))
  | none => (fs, [], some (.fileNotFoundError p))

/-- `del_meta_data` over the subject's sidecar list. -/
def del_meta_data (fields_del : List String)
    (json_files : List (String × String)) (fs : FS) :
    FS × List Event × Option PyExn :=
  match json_files with
  | [] => (fs, [], none)
  | (p, qp) :: rest =>
      match delMetaFile fields_del p qp fs with
      | (fs1, ev1, some e) => (fs1, ev1, some e)
      | (fs1, ev1, none) =>
          match del_meta_data fields_del rest fs1 with
          | (fs2, ev2, ex) => (fs2, ev1 ++ ev2, ex)

/-! ### Claim C5 -/

/-- Association-list lookup on a parsed JSON object. -/
def lookupMeta (meta : List (String × String)) (k : String) : Option String :=
  match meta with
  | [] => none
  | (k', v) :: rest => if k' = k then some v else lookupMeta rest k

theorem lookupMeta_editMeta (fields_del : List String)
    (meta : List (String × String)) (k : String) :
    lookupMeta (editMeta fields_del meta) k =
      (lookupMeta meta k).map
        (fun v => if k ∈ fields_del then sentinel else v) := by
  induction meta with
  | nil => simp [editMeta, lookupMeta]
  | cons kv rest ih =>
      obtain ⟨k', v⟩ := kv
      have hpush : (if k' ∈ fields_del then (k', sentinel) else (k', v))
          = (k', if k' ∈ fields_del then sentinel else v) := by
        by_cases hf : k' ∈ fields_del <;> simp [hf]
      have hcons : editMeta fields_del ((k', v) :: rest)
          = (k', if k' ∈ fields_del then sentinel else v)
              :: editMeta fields_del rest := by
        simp only [editMeta, List.map_cons]
        exact congrArg (fun x => x :: List.map _ rest) hpush
      rw [hcons]
      by_cases hk : k' = k
      · subst hk; simp [lookupMeta]
      · simp [lookupMeta, hk, ih]

/-- C5.  Running `del_meta_data` on a sidecar at path `p` (parsed
contents `m`, quarantine path `qp ≠ p`):
* if at least one requested field is present, the pre-edit sidecar is
  relocated to `qp` unchanged, and the canonical path `p` is rewritten so
  that each present requested field's value is the sentinel
  `deleted_by_bidsonym` while every other field is unchanged;
* if no requested field is present, the filesystem is left completely
  untouched (no relocation, no rewrite). -/
theorem del_meta_data_sidecar_spec (fields_del : List String) (p qp : String)
    (m : List (String × String)) (fs : FS)
    (hread : fsLookup fs p = some (.json m)) (hqp : qp ≠ p) :
    (metaEdited fields_del m = true →
        (del_meta_data fields_del [(p, qp)] fs).2.2 = none
      ∧ fsLookup (del_meta_data fields_del [(p, qp)] fs).1 qp = some (.json m)
      ∧ fsLookup (del_meta_data fields_del [(p, qp)] fs).1 p
          = some (.json (editMeta fields_del m))
      ∧ ∀ k, lookupMeta (editMeta fields_del m) k =
          (lookupMeta m k).map
            (fun v => if k ∈ fields_del then sentinel else v))
    ∧ (metaEdited fields_del m = false →
        del_meta_data fields_del [(p, qp)] fs = (fs, [], none)) := by
  constructor
  · intro hedit
    have hmove : move_file fs p qp
        = .ok (fsInsert (fsErase fs p) qp (.json m)) := by
      simp [move_file, hread]
    have hrun : del_meta_data fields_del [(p, qp)] fs
        = (fsInsert (fsInsert (fsErase fs p) qp (.json m)) p
            (.json (editMeta fields_del m)), [.delMetaEdit p], none) := by
      simp [del_meta_data, delMetaFile, hread, hedit, hmove]
    refine ⟨by simp [hrun], ?_, ?_, lookupMeta_editMeta fields_del m⟩
    · rw [hrun]
      rw [fsLookup_fsInsert_ne _ p qp _ (Ne.symm hqp)]
      exact fsLookup_fsInsert_self (fsErase fs p) qp (.json m)
    · rw [hrun]
      exact fsLookup_fsInsert_self _ _ _
  · intro hedit
    simp [del_meta_data, delMetaFile, hread, hedit]

/-- Witness for `del_meta_data_sidecar_spec`: the spec's own redaction
example — sidecar `{"InstitutionName": "X", "Other": "Y"}`, delete-list
`["InstitutionName"]`. -/
theorem del_meta_data_sidecar_spec_witness :
    (metaEdited ["InstitutionName"] [("InstitutionName", "X"), ("Other", "Y")] = true →
        (del_meta_data ["InstitutionName"]
            [("/b/sub-01/anat/sub-01_T1w.json",
              "/b/sourcedata/bidsonym/sub-01/anat/sub-01_T1w.json")]
            [("/b/sub-01/anat/sub-01_T1w.json",
              .json [("InstitutionName", "X"), ("Other", "Y")])]).2.2 = none
      ∧ fsLookup (del_meta_data ["InstitutionName"]
            [("/b/sub-01/anat/sub-01_T1w.json",
              "/b/sourcedata/bidsonym/sub-01/anat/sub-01_T1w.json")]
            [("/b/sub-01/anat/sub-01_T1w.json",
              .json [("InstitutionName", "X"), ("Other", "Y")])]).1
          "/b/sourcedata/bidsonym/sub-01/anat/sub-01_T1w.json"
          = some (.json [("InstitutionName", "X"), ("Other", "Y")])
      ∧ fsLookup (del_meta_data ["InstitutionName"]
            [("/b/sub-01/anat/sub-01_T1w.json",
              "/b/sourcedata/bidsonym/sub-01/anat/sub-01_T1w.json")]
            [("/b/sub-01/anat/sub-01_T1w.json",
              .json [("InstitutionName", "X"), ("Other", "Y")])]).1
          "/b/sub-01/anat/sub-01_T1w.json"
          = some (.json (editMeta ["InstitutionName"]
              [("InstitutionName", "X"), ("Other", "Y")]))
      ∧ ∀ k, lookupMeta (editMeta ["InstitutionName"]
            [("InstitutionName", "X"), ("Other", "Y")]) k =
          (lookupMeta [("InstitutionName", "X"), ("Other", "Y")] k).map
            (fun v => if k ∈ ["InstitutionName"] then sentinel else v))
    ∧ (metaEdited ["InstitutionName"] [("InstitutionName", "X"), ("Other", "Y")] = false →
        del_meta_data ["InstitutionName"]
            [("/b/sub-01/anat/sub-01_T1w.json",
              "/b/sourcedata/bidsonym/sub-01/anat/sub-01_T1w.json")]
            [("/b/sub-01/anat/sub-01_T1w.json",
              .json [("InstitutionName", "X"), ("Other", "Y")])]
          = ([("/b/sub-01/anat/sub-01_T1w.json",
               .json [("InstitutionName", "X"), ("Other", "Y")])], [], none)) :=
  del_meta_data_sidecar_spec ["InstitutionName"]
    "/b/sub-01/anat/sub-01_T1w.json"
    "/b/sourcedata/bidsonym/sub-01/anat/sub-01_T1w.json"
    [("InstitutionName", "X"), ("Other", "Y")]
    [("/b/sub-01/anat/sub-01_T1w.json",
      .json [("InstitutionName", "X"), ("Other", "Y")])]
    (by rfl) (by decide)

/-! ## `bidsonym.utils.check_meta_data` (utils.py:37-121)

For each subject image, a DataFrame
`{'header_data_field': keys, 'data': dat, 'problematic': 'no'}` is built,
then utils.py:75-79 iterates `header_df.iterrows()` and assigns
`row['problematic'] = 'maybe'/'no'`.  `DataFrame.iterrows` yields a fresh
`Series` copy of each row, so those assignments land on the copies and are
discarded; the frame written by `to_csv` at utils.py:81 is the constructed
one.  The same pattern repeats for the JSON frames at utils.py:100-121.
A frame is modelled as a list of `(field, value, problematic)` rows. -/

/-- Python's `str.lower()` (per-character ASCII lowering). -/
def pyLower (s : String) : String := String.mk (s.toList.map Char.toLower)

/-- The marker the header loop computes for one row (utils.py:76:
`any(i.lower() in row['header_data_field'] for i in prob_fields)`,
a lower-cased substring test). -/
def headerRowMarker (prob_fields : List String) (field : String) : String :=
  if prob_fields.any (fun i => strContains field (pyLower i)) then "maybe" else "no"

/-- The marker the JSON loop computes for one row (utils.py:112:
`any(i in row['meta_data_field'] for i in prob_fields)`, a case-sensitive
substring test). -/
def jsonRowMarker (prob_fields : List String) (field : String) : String :=
  if prob_fields.any (fun i => strContains field i) then "maybe" else "no"

/-- utils.py:70-73: the header check always adds `'descrip'`. -/
def headerProbFields (prob_fields : List String) : List String :=
  prob_fields ++ ["descrip"]

/-- utils.py:102-109: the JSON check always adds the built-in
problematic-field list. -/
def jsonProbFields (prob_fields : List String) : List String :=
  prob_fields ++
    ["AcquisitionTime", "InstitutionAddress", "InstitutionName",
     "InstitutionalDepartmentName", "ProcedureStepDescription", "ProtocolName",
     "PulseSequenceDetails", "SeriesDescription", "global"]

/-- `pd.DataFrame({..., 'problematic': 'no'})`: every row starts with the
marker `'no'`. -/
def buildInfoFrame (keys vals : List String) : List (String × String × String) :=
  (keys.zip vals).map (fun kv => (kv.1, kv.2, "no"))

/-- The header frame as written by `to_csv` (utils.py:81-86).  The
`iterrows` loop's markers are computed on row copies
(`markers` below) and never stored back, so the written frame is the
constructed one. -/
def checkMetaHeaderWritten (keys vals prob_fields : List String) :
    List (String × String × String) :=
  let header_df := buildInfoFrame keys vals
  let markers := header_df.map
    (fun row => headerRowMarker (headerProbFields prob_fields) row.1)
  let _ := markers   -- assigned to discarded row copies (utils.py:75-79)
  header_df

/-- The JSON frame as written by `to_csv` (utils.py:117-121), same
copy-discarding `iterrows` pattern (utils.py:111-115). -/
def checkMetaJsonWritten (keys vals prob_fields : List String) :
    List (String × String × String) :=
  let json_df := buildInfoFrame keys vals
  let markers := json_df.map
    (fun row => jsonRowMarker (jsonProbFields prob_fields) row.1)
  let _ := markers
  json_df

/-! ### Claim C9 -/

/-- C9.  Every row of every header-info and JSON-info CSV written by
`check_meta_data` has `problematic = 'no'`, whatever the user-supplied
`prob_fields` and whatever the field names — even though the per-row
marker the loop computes is `'maybe'` for matching fields (last
conjunct shows this for the built-in `'descrip'` and
`'InstitutionName'` entries): the marker assignment at utils.py:77/113
mutates an `iterrows` row copy that is never written back. -/
theorem check_meta_data_problematic_always_no :
    (∀ keys vals prob_fields : List String,
        (∀ row ∈ checkMetaHeaderWritten keys vals prob_fields, row.2.2 = "no")
      ∧ (∀ row ∈ checkMetaJsonWritten keys vals prob_fields, row.2.2 = "no"))
    ∧ headerRowMarker (headerProbFields []) "descrip" = "maybe"
    ∧ jsonRowMarker (jsonProbFields []) "InstitutionName" = "maybe" := by
  refine ⟨fun keys vals prob_fields => ⟨?_, ?_⟩, by decide, by decide⟩ <;>
  · intro row hrow
    simp only [checkMetaHeaderWritten, checkMetaJsonWritten, buildInfoFrame,
      List.mem_map] at hrow
    obtain ⟨kv, _, rfl⟩ := hrow
    rfl

/-! ## `bidsonym.utils.deface_t2w` (utils.py:386-416)

```python
infile_img = load(image)
warped_mask_img = load(warped_mask)
warped_mask_img = math_img('img > 0', img=warped_mask_img)
try:
    outdata = infile_img.get_fdata().squeeze() * warped_mask_img.get_fdata()
except ValueError:
    tmpdata = np.stack([warped_mask_img.get_fdata()] *
                       infile_img.get_fdata().shape[-1], axis=-1)
    outdata = infile_img.fget_data() * tmpdata
```

Volumes are modelled as a shape plus row-major flat data over `ℚ`.
`numpy` elementwise `*` succeeds on broadcast-compatible shapes and
raises `ValueError` otherwise; on equal shapes it is the elementwise
product. -/

/-- An n-dimensional array: row-major flat data with its shape. -/
structure NDArr where
  shape : List Nat
  data : List ℚ
deriving DecidableEq, Repr

/-- `ndarray.squeeze()`: drop every axis of size 1 (data unchanged). -/
def squeezeArr (a : NDArr) : NDArr := ⟨a.shape.filter (· ≠ 1), a.data⟩

/-- `nilearn.image.math_img('img > 0', ...)`: binarize, `> 0 ↦ 1`. -/
def binarize (a : NDArr) : NDArr :=
  ⟨a.shape, a.data.map (fun x => if 0 < x then 1 else 0)⟩

/-- numpy broadcast compatibility of two shapes (compared from the
trailing axis; an absent or size-1 axis broadcasts). -/
def broadcastCompatRev : List Nat → List Nat → Bool
  | [], _ => true
  | _, [] => true
  | a :: as, b :: bs => (a = b || a = 1 || b = 1) && broadcastCompatRev as bs

/-- The broadcast result shape (aligned from the trailing axis). -/
def broadcastShapeRev : List Nat → List Nat → List Nat
  | [], t => t
  | s, [] => s
  | a :: as, b :: bs => max a b :: broadcastShapeRev as bs

/-- Row-major flat index to multi-index for a shape. -/
def unflattenIdx : List Nat → Nat → List Nat
  | [], _ => []
  | d :: ds, i =>
      let stride := ds.prod
      (i / stride % d) :: unflattenIdx ds (i % stride)

/-- Multi-index to row-major flat index. -/
def flattenIdx : List Nat → List Nat → Nat
  | [], _ => 0
  | _ :: ds, [] => 0 * ds.prod
  | d :: ds, i :: is =>
      let _ := d
      i * ds.prod + flattenIdx ds is

/-- Read an operand at a broadcast-result multi-index: the leading extra
axes are dropped and every size-1 axis is read at 0. -/
def ndGet (a : NDArr) (idx : List Nat) : ℚ :=
  let idx' := idx.drop (idx.length - a.shape.length)
  let aligned := (a.shape.zip idx').map (fun p => if p.1 = 1 then 0 else p.2)
  a.data.getD (flattenIdx a.shape aligned) 0

/-- General broadcast elementwise product. -/
def broadcastMul (a b : NDArr) : NDArr :=
  let s := (broadcastShapeRev a.shape.reverse b.shape.reverse).reverse
  ⟨s, (List.range s.prod).map
        (fun i => let idx := unflattenIdx s i; ndGet a idx * ndGet b idx)⟩

/-- numpy elementwise `*`: equal shapes multiply pointwise (the
equal-shape case of broadcasting), compatible shapes broadcast, anything
else raises `ValueError`. -/
def npMul (a b : NDArr) : Except PyExn NDArr :=
  if a.shape = b.shape then .ok ⟨a.shape, List.zipWith (· * ·) a.data b.data⟩
  else if broadcastCompatRev a.shape.reverse b.shape.reverse then
    .ok (broadcastMul a b)
  else .error (.valueError "operands could not be broadcast together")

/-- `np.stack([a] * n, axis=-1)`: replicate along a new trailing axis. -/
def npStackLast (a : NDArr) (n : Nat) : NDArr :=
  ⟨a.shape ++ [n], a.data.flatMap (fun x => List.replicate n x)⟩

/-- Modelled from the nibabel API (external library): `Nifti1Image` offers
`get_fdata` (and the long-deprecated `get_data`), but no attribute named
`fget_data`; utils.py:412 nevertheless calls `infile_img.fget_data()`. -/
def nifti1ImageHasFgetData : Bool := false

/-- `deface_t2w` on the loaded secondary image and warped mask.  The
`except ValueError` fallback replicates the 3-D mask across the trailing
dimension (`tmpdata`), but then reads `infile_img.fget_data()`, an
attribute that does not exist, raising `AttributeError` before the
product is formed. -/
def deface_t2w (infile_img warped_mask_img : NDArr) : Except PyExn NDArr :=
  match npMul (squeezeArr infile_img) (binarize warped_mask_img) with
  | .ok outdata => .ok outdata
  | .error _ =>
      if nifti1ImageHasFgetData then
        .ok ⟨infile_img.shape,
          List.zipWith (· * ·) infile_img.data
            (npStackLast (binarize warped_mask_img)
              (infile_img.shape.getLastD 0)).data⟩
      else .error (.attributeError "Nifti1Image object has no attribute fget_data")

/-! ### Claim C8 -/

/-- C8.  At a 4-D secondary series (shape 1×1×2×3) with a 3-D warped
mask (shape 1×1×2), the shapes are broadcast-incompatible, the
elementwise product raises `ValueError`, and the fallback branch —
instead of producing the mask-replicated product — raises
`AttributeError`, because `Nifti1Image` has no attribute `fget_data`
(utils.py:412; the working spelling, used everywhere else, is
`get_fdata`). -/
theorem deface_t2w_shape_mismatch_attribute_error :
    deface_t2w ⟨[1, 1, 2, 3], [0, 1, 2, 3, 4, 5]⟩ ⟨[1, 1, 2], [1, 0]⟩
      = .error (.attributeError "Nifti1Image object has no attribute fget_data") := by
  rfl

/-- Supporting fact for C8's first half (not itself a claim): on a
secondary image and mask of equal shape with no size-1 axis, `deface_t2w`
succeeds and every voxel is the image's value where the mask is positive
and `0` where it is not. -/
theorem deface_t2w_matching_shape_masks (img mask : NDArr)
    (hsh : img.shape = mask.shape) (h1 : (1 : Nat) ∉ img.shape) :
    deface_t2w img mask
      = .ok ⟨img.shape,
          List.zipWith (fun x m => if 0 < m then x else (0 : ℚ))
            img.data mask.data⟩ := by
  have hsq : squeezeArr img = img := by
    unfold squeezeArr
    cases img with
    | mk s d =>
        simp only [NDArr.mk.injEq, and_true]
        refine List.filter_eq_self.mpr (fun a ha => ?_)
        simp only [ne_eq, decide_eq_true_eq]
        intro h
        exact h1 (h ▸ ha)
  have hfun : (fun x m : ℚ => x * (if 0 < m then 1 else 0))
      = (fun x m : ℚ => if 0 < m then x else 0) := by
    funext x m
    by_cases hm : 0 < m <;> simp [hm]
  have hcond : img.shape = (binarize mask).shape := hsh
  have hmul : npMul (squeezeArr img) (binarize mask)
      = .ok ⟨img.shape,
          List.zipWith (fun x m => if 0 < m then x else (0 : ℚ))
            img.data mask.data⟩ := by
    rw [hsq]
    unfold npMul
    rw [if_pos hcond]
    congr 2
    show List.zipWith (· * ·) img.data
        (mask.data.map fun x => if 0 < x then 1 else 0) = _
    rw [List.zipWith_map_right]
    exact congrArg (fun f => List.zipWith f img.data mask.data) hfun
  unfold deface_t2w
  rw [hmul]

/-! ## Run configuration and dataset interface

`Config` mirrors the parameters of `deeid` (deeid.py:21-32) and
`run_deeid` (run_deeid.py:114-126).  Optional CLI list arguments that
default to `None` are modelled as possibly-empty lists (Python truthiness
of `None` and `[]` coincide); `bet_frac` keeps its `nargs=1` single
element.  `check_meta` exists only in the `run_deeid` variant and is
ignored by `deeid`. -/
structure Config where
  analysis_level : String
  participant_label : List String
  deid : Option String
  del_meta : List String
  brainextraction : Option String
  bet_frac : Option String
  deface_t2w : Bool
  skip_bids_validation : Bool
  check_meta : List String
deriving DecidableEq, Repr

/-- One anatomical T1w file as the external `BIDSLayout` reports it.  The
paths built by the external `build_path` calls are carried as fields:
`qpath` is the quarantine path for this file
(`nodeid_layout.build_path(file.entities)`), `t2path` the canonical path
of the sibling T2w (`layout.build_path` of the entities with
`suffix = "T2w"`, deeid.py:136-138), `t2qpath` the quarantine path for
that T2w. -/
structure BFile where
  path : String
  qpath : String
  t2path : String
  t2qpath : String
  session : Option String
deriving DecidableEq, Repr

/-- The dataset as the external `BIDSLayout` index answers queries over
it: the known subjects, and per subject its T1w files
(`layout.get(subject=..., extension="nii.gz", suffix="T1w")`) and its
JSON sidecars with their quarantine paths
(`layout.get(subject=..., suffix="json")` plus
`nodeid_layout.build_path`). -/
structure Dataset where
  subjects : List String
  t1wOf : String → List BFile
  jsonOf : String → List (String × String)

/-! ## Participant resolution

deeid.py:68-81 and run_deeid.py:159-170.  Both variants initialise
`subjects_to_analyze = []` and then run

```python
if participant_label:
    missing_participants = []
    for participant in subjects_to_analyze:   # iterates the EMPTY list
        if participant not in layout.get_subjects():
            missing_participants.append(participant)
    if len(missing_participants) > 0:
        raise ValueError(...)
    else:
        subjects_to_analyze = participant_label   # deeid.py:79 only!
else:
    subjects_to_analyze = layout.get(return_type="id", target="subject")
```

so `missing_participants` is always empty; `run_deeid` additionally lacks
the `subjects_to_analyze = participant_label` assignment (its
`if len(...) > 0` has no else branch), leaving the list empty. -/

/-- deeid.py:68-81. -/
def deeidResolveSubjects (participant_label layoutSubjects : List String) :
    Except PyExn (List String) :=
  let subjects_to_analyze : List String := []
  if participant_label ≠ [] then
    let missing_participants :=
      subjects_to_analyze.filter (fun p => p ∉ layoutSubjects)
    if missing_participants.length > 0 then
      .error (.valueError
        ("The participant(s) " ++ String.intercalate " " missing_participants ++
         " are not present in the BIDS dataset, please check again."))
    else .ok participant_label
  else .ok layoutSubjects

/-- run_deeid.py:159-170 (no assignment in the non-raising branch). -/
def runDeeidResolveSubjects (participant_label layoutSubjects : List String) :
    Except PyExn (List String) :=
  let subjects_to_analyze : List String := []
  if participant_label ≠ [] then
    let missing_participants :=
      subjects_to_analyze.filter (fun p => p ∉ layoutSubjects)
    if missing_participants.length > 0 then
      .error (.valueError
        ("The participant(s) " ++ String.intercalate " " missing_participants ++
         " are not present in the BIDS dataset, please check again."))
    else .ok subjects_to_analyze
  else .ok layoutSubjects

/-- The participant check inside `validate_input_dir` (utils.py:352-371),
which `run_deeid` calls only when BIDS validation is not skipped: strips
optional `sub-` prefixes, takes the set difference with the directory's
subjects, and raises a single `RuntimeError` naming every offending label
(comma-joined).  The subsequent external `bids-validator` subprocess only
reads the dataset. -/
def validateInputDirCheck (participant_label dirSubjects : List String) :
    Option PyExn :=
  if participant_label ≠ [] then
    let selected_subs := (participant_label.map
      (fun s => if s.startsWith "sub-" then s.drop 4 else s)).dedup
    let bad_labels := selected_subs.filter (fun s => s ∉ dirSubjects)
    if bad_labels ≠ [] then
      some (.runtimeError
        ("Data for requested participant(s) label(s) not found. Could not " ++
         "find data for participant(s): " ++ String.intercalate "," bad_labels ++
         ". Please verify the requested participant labels."))
    else none
  else none

/-- Supporting fact (not itself a claim): `validate_input_dir` does raise
one error enumerating every unknown label — evidence that the dead
in-function check of deeid.py:68-79 / run_deeid.py:159-170 was intended
to do the same. -/
theorem validateInputDirCheck_enumerates :
    validateInputDirCheck ["99", "98", "01"] ["01", "02"]
      = some (.runtimeError
        ("Data for requested participant(s) label(s) not found. Could not " ++
         "find data for participant(s): 99,98" ++
         ". Please verify the requested participant labels.")) := by
  rfl

/-! ## Configuration validation (deeid.py:36-56, run_deeid.py:128-156) -/

/-- The validation prefix shared by both variants, in source order:
`bet` without a frac value, no brain-extraction method, `participant`
level without labels, `group` level with labels. -/
def deeidValidate (cfg : Config) : Option PyExn :=
  if cfg.brainextraction = some "bet" ∧ cfg.bet_frac = none then
    some (.valueError
      ("If you want to use BET for pre-defacing brain extraction," ++
       "please provide a Frac value. For example: --bet_frac 0.5"))
  else if cfg.brainextraction = none then
    some (.genericExc
      ("For post defacing quality it is required to run a " ++
       "form of brainextraction on the non-deindentified data." ++
       "Thus please either indicate bet (--brainextration bet) " ++
       "or nobrainer (--brainextraction nobrainer)."))
  else if cfg.analysis_level = "participant" ∧ cfg.participant_label = [] then
    some (.valueError "No participant label indicated. Please do so.")
  else if cfg.analysis_level = "group" ∧ cfg.participant_label ≠ [] then
    some (.valueError "Cannot set participant_label for group level analysis.")
  else none

/-! ## The `deeid` subject pipeline (deeid.py:85-169)

Per T1w file:
1. `source_t1w = copy_no_deid(bids_dir, t1w)` — relocation first
   (deeid.py:99);
2. strip all extensions from `source_t1w`, append `_brainmask.nii.gz`,
   and run the configured brain-extraction method on `source_t1w`
   (deeid.py:102-114); a method string that is neither `bet` nor
   `nobrainer` leaves `brainmask_t1` unbound;
3. dispatch the defacing method, writing the defaced output at the
   canonical `T1_file` (deeid.py:117-127; `mridefacer` writes
   `dirname(T1_file)/basename(source)`); an unknown/absent method leaves
   `defaced_t1` unbound;
4. `plot_overlay(brainmask_t1, defaced_t1)` and `nifti_to_gif(defaced_t1)`
   (deeid.py:130-131) — a still-unbound local raises `NameError` here;
5. the T2 block (deeid.py:134-168): only if `deface_t2w` was requested;
   a missing T2w file is a logged warning and skip.

External tools are opaque: each deterministically writes its declared
output path (content tagged with its provenance). -/

/-- Brain extraction dispatch (deeid.py:107-114, run through
`run_brain_extraction_bet`/`run_brain_extraction_nb` of
brainextraction.py, which write `outfile`).  Returns the possibly-unbound
`brainmask` local and, for `bet`, raises `TypeError` if `bet_frac` is
`None` (the `bet_frac[0]` subscript). -/
def deeidExtract (cfg : Config) (src bm : String) (fs : FS) :
    FS × List Event × Option String × Option PyExn :=
  if cfg.brainextraction = some "bet" then
    match cfg.bet_frac with
    | none => (fs, [], none, some (.typeError "NoneType object is not subscriptable"))
    | some _ =>
        (fsInsert fs bm (.nifti ("mask:" ++ src)), [.extract src bm], some bm, none)
  else if cfg.brainextraction = some "nobrainer" then
    (fsInsert fs bm (.nifti ("mask:" ++ src)), [.extract src bm], some bm, none)
  else (fs, [], none, none)

/-- Defacing dispatch (deeid.py:117-127): writes the defaced volume and
returns the possibly-unbound `defaced_t1` local.  All five methods write
the canonical path, except `mridefacer`, whose adapter returns
`outdir/basename(source)` with `outdir = dirname(T1_file)`. -/
def deeidDeface (deid : Option String) (src t1path : String) (fs : FS) :
    FS × List Event × Option String :=
  if deid = some "pydeface" then
    (fsInsert fs t1path (.nifti ("defaced:" ++ src)), [.deface src t1path], some t1path)
  else if deid = some "mri_deface" then
    (fsInsert fs t1path (.nifti ("defaced:" ++ src)), [.deface src t1path], some t1path)
  else if deid = some "quickshear" then
    (fsInsert fs t1path (.nifti ("defaced:" ++ src)), [.deface src t1path], some t1path)
  else if deid = some "mridefacer" then
    let out := dirname t1path ++ "/" ++ basename src
    (fsInsert fs out (.nifti ("defaced:" ++ src)), [.deface src out], some out)
  else if deid = some "deepdefacer" then
    (fsInsert fs t1path (.nifti ("defaced:" ++ src)), [.deface src t1path], some t1path)
  else (fs, [], none)

/-- The T2 block (deeid.py:134-168): entered only when `deface_t2w` was
requested; a missing T2w is a logged warning and skip; otherwise the T2w
is relocated, brain-extracted, defaced with the defaced T1w as mask
(`run_t2w_deface`), and reported. -/
def deeidT2Block (cfg : Config) (t1 : BFile) (dfp : String) (fs : FS) :
    FS × List Event × Option PyExn :=
  if cfg.deface_t2w then
    match fsLookup fs t1.t2path with
    | none => (fs, [.warnNoT2 t1.t2path t1.path], none)
    | some _ =>
        match move_file fs t1.t2path t1.t2qpath with
        | .error e => (fs, [], some e)
        | .ok fs1 =>
            let src2 := t1.t2qpath
            let bm2 := stripExts src2 ++ "_brainmask.nii.gz"
            let ev0 := [Event.relocate t1.t2path t1.t2qpath]
            match deeidExtract cfg src2 bm2 fs1 with
            | (fs2, ev2, _, some e) => (fs2, ev0 ++ ev2, some e)
            | (fs2, ev2, bmv, none) =>
                let fs3 := fsInsert fs2 t1.t2path
                  (.nifti ("defaced:" ++ src2 ++ ":mask:" ++ dfp))
                let ev3 := ev0 ++ ev2 ++ [Event.deface src2 t1.t2path]
                match bmv with
                | none => (fs3, ev3, some (.nameError "brainmask_t2"))
                | some bmp2 =>
                    let png2 := (splitext t1.t2path).1 ++ ".png"
                    let gif2 := (splitext t1.t2path).1 ++ ".gif"
                    (fsInsert (fsInsert fs3 png2
                        (.png ("overlay:" ++ bmp2 ++ ":" ++ t1.t2path)))
                      gif2 (.gif t1.t2path),
                     ev3 ++ [Event.overlay png2, Event.gifReport t1.t2path], none)
  else (fs, [], none)

/-- Processing of one T1w file in `deeid` (deeid.py:95-168). -/
def deeidT1File (cfg : Config) (t1 : BFile) (fs : FS) :
    FS × List Event × Option PyExn :=
  match move_file fs t1.path t1.qpath with
  | .error e => (fs, [], some e)
  | .ok fs1 =>
      let src := t1.qpath
      let bm := stripExts src ++ "_brainmask.nii.gz"
      let ev0 := [Event.relocate t1.path t1.qpath]
      match deeidExtract cfg src bm fs1 with
      | (fs2, ev2, _, some e) => (fs2, ev0 ++ ev2, some e)
      | (fs2, ev2, bmv, none) =>
          match deeidDeface cfg.deid src t1.path fs2 with
          | (fs3, ev3, dfv) =>
              match bmv with
              | none => (fs3, ev0 ++ ev2 ++ ev3, some (.nameError "brainmask_t1"))
              | some bmp =>
                  match dfv with
                  | none => (fs3, ev0 ++ ev2 ++ ev3, some (.nameError "defaced_t1"))
                  | some dfp =>
                      let png := (splitext dfp).1 ++ ".png"
                      let gifp := (splitext dfp).1 ++ ".gif"
                      let fs5 := fsInsert (fsInsert fs3 png
                          (.png ("overlay:" ++ bmp ++ ":" ++ dfp)))
                        gifp (.gif dfp)
                      let ev5 := ev0 ++ ev2 ++ ev3 ++
                        [Event.overlay png, Event.gifReport dfp]
                      match deeidT2Block cfg t1 dfp fs5 with
                      | (fs6, ev6, ex6) => (fs6, ev5 ++ ev6, ex6)

/-- The per-subject T1w loop (deeid.py:95). -/
def deeidFiles (cfg : Config) : List BFile → FS → FS × List Event × Option PyExn
  | [], fs => (fs, [], none)
  | t1 :: rest, fs =>
      match deeidT1File cfg t1 fs with
      | (fs1, ev1, some e) => (fs1, ev1, some e)
      | (fs1, ev1, none) =>
          match deeidFiles cfg rest fs1 with
          | (fs2, ev2, ex) => (fs2, ev1 ++ ev2, ex)

/-- One subject (deeid.py:85-169): optional metadata deletion
(deeid.py:88-89), then the T1w loop. -/
def deeidSubject (cfg : Config) (ds : Dataset) (subject : String) (fs : FS) :
    FS × List Event × Option PyExn :=
  let (fsA, evA, exA) :=
    if cfg.del_meta ≠ [] then del_meta_data cfg.del_meta (ds.jsonOf subject) fs
    else (fs, [], none)
  match exA with
  | some e => (fsA, evA, some e)
  | none =>
      match deeidFiles cfg (ds.t1wOf subject) fsA with
      | (fsB, evB, exB) => (fsB, evA ++ evB, exB)

/-- The subject loop (deeid.py:85). -/
def deeidSubjects (cfg : Config) (ds : Dataset) :
    List String → FS → FS × List Event × Option PyExn
  | [], fs => (fs, [], none)
  | s :: rest, fs =>
      match deeidSubject cfg ds s fs with
      | (fs1, ev1, some e) => (fs1, ev1, some e)
      | (fs1, ev1, none) =>
          match deeidSubjects cfg ds rest fs1 with
          | (fs2, ev2, ex) => (fs2, ev1 ++ ev2, ex)

/-- `bidsonym.deeid.deeid` (deeid.py:21-169): validation, then
participant resolution (the `BIDSLayout` construction at deeid.py:65-67
only reads the dataset), then the subject loop.  `validate_input_dir` is
never called in this variant. -/
def deeid (cfg : Config) (ds : Dataset) (fs : FS) :
    FS × List Event × Option PyExn :=
  match deeidValidate cfg with
  | some e => (fs, [], some e)
  | none =>
      match deeidResolveSubjects cfg.participant_label ds.subjects with
      | .error e => (fs, [], some e)
      | .ok subjects_to_analyze => deeidSubjects cfg ds subjects_to_analyze fs

/-! ## The `run_deeid` variant (run_deeid.py:114-238)

Its per-file order differs from `deeid`: brain extraction runs on the
canonical (pre-relocation) `T1_file` first, then `check_meta_data`, then
relocation, then optional metadata deletion, then defacing, then the T2
block and `create_graphics`. -/

/-- Python's `str.endswith`. -/
def strEndsWith (s suffix : String) : Bool :=
  List.isPrefixOf suffix.toList.reverse s.toList.reverse

/-- Non-recursive `glob` inside one directory: the paths of `fs` whose
directory is `dir` and whose name matches `keep`. -/
def globDir (fs : FS) (dir : String) (keep : String → Bool) : List String :=
  (fs.map Prod.fst).filter (fun p => dirname p = dir && keep (basename p))

/-- Move each listed path into `outDir` under its own name.  The paths
are globbed from the filesystem, so each `move_file` succeeds. -/
def moveAllInto (paths : List String) (outDir : String) (fs : FS) : FS :=
  paths.foldl
    (fun acc p =>
      match move_file acc p (outDir ++ "/" ++ basename p) with
      | .ok acc' => acc'
      | .error _ => acc)
    fs

/-- `bidsonym.utils.rename_non_deid` (utils.py:165-191): inside the
subject's quarantine directory, every `*json` file not already named
`*desc-nondeid.json` is renamed to `<name up to last ".json">` +
`_desc-nondeid.json`, and likewise `*nii.gz` files with `.nii.gz`. -/
def rename_non_deid (bids_dir subject_label : String) (fs : FS) : FS :=
  let dir := bids_dir ++ "/sourcedata/bidsonym/sub-" ++ subject_label
  let metas := globDir fs dir
    (fun b => strEndsWith b "json" && !(strEndsWith b "desc-nondeid.json"))
  let fs1 := metas.foldl
    (fun acc p =>
      match move_file acc p
          (dir ++ "/" ++ nameUpToLast ".json" p ++ "_desc-nondeid.json") with
      | .ok acc' => acc'
      | .error _ => acc)
    fs
  let imgs := globDir fs1 dir
    (fun b => strEndsWith b "nii.gz" && !(strEndsWith b "desc-nondeid.nii.gz"))
  imgs.foldl
    (fun acc p =>
      match move_file acc p
          (dir ++ "/" ++ nameUpToLast ".nii.gz" p ++ "_desc-nondeid.nii.gz") with
      | .ok acc' => acc'
      | .error _ => acc)
    fs1

/-- `bidsonym.utils.clean_up_files` (utils.py:419-472): moves the
subject's quarantined images/graphics into `images/` and its CSV/JSON
reports into `meta_data_info/` (session-specific subtree and
`sub-<label>_ses-<session>*` glob when a session is given). -/
def clean_up_files (bids_dir subject_label : String) (session : Option String)
    (fs : FS) : FS :=
  let dir := bids_dir ++ "/sourcedata/bidsonym/sub-" ++ subject_label
  match session with
  | some ses =>
      let out_images := dir ++ "/ses-" ++ ses ++ "/images"
      let out_info := dir ++ "/ses-" ++ ses ++ "/meta_data_info"
      let stem := "sub-" ++ subject_label ++ "_ses-" ++ ses
      let images := globDir fs dir
        (fun b => b.startsWith stem &&
          (strEndsWith b ".nii.gz" || strEndsWith b ".png" || strEndsWith b ".gif"))
      let fs1 := moveAllInto images out_images fs
      let info := globDir fs1 dir
        (fun b => b.startsWith stem &&
          (strEndsWith b ".csv" || strEndsWith b ".json"))
      moveAllInto info out_info fs1
  | none =>
      let out_images := dir ++ "/images"
      let out_info := dir ++ "/meta_data_info"
      let images := globDir fs dir
        (fun b => strEndsWith b ".nii.gz" || strEndsWith b ".png" ||
          strEndsWith b ".gif")
      let fs1 := moveAllInto images out_images fs
      let info := globDir fs1 dir
        (fun b => strEndsWith b ".csv" || strEndsWith b ".json")
      moveAllInto info out_info fs1

/-- Modelled from the spec: report generation for one subject — "produce
an overlay image ... and a short animated preview of the defaced volume".
`create_graphics` is imported from `bidsonym.reports` (run_deeid.py:22)
but no function of that name is present in the repository's reports
module (which defines only `nifti_to_gif` and `plot_overlay`); only its
call site is available.  It is modelled as an opaque report-producing
step. -/
def create_graphics (subject : String) (fs : FS) : FS × List Event :=
  (fs, [Event.graphics subject])

/-- The defacing dispatch of run_deeid.py:198-207.  Unlike deeid.py it
passes `T1_file` itself as `mridefacer`'s output *directory*, and calls
`run_deepdefacer(source_t1w, subject_label, bids_dir)` — three arguments
against the two-parameter `run_deepdefacer(in_file, out_file)` of
defacing_algorithms.py, a `TypeError`. -/
def runDeeidDefaceDispatch (deid : Option String) (src t1path : String)
    (fs : FS) : FS × List Event × Option PyExn :=
  if deid = some "pydeface" then
    (fsInsert fs t1path (.nifti ("defaced:" ++ src)), [.deface src t1path], none)
  else if deid = some "mri_deface" then
    (fsInsert fs t1path (.nifti ("defaced:" ++ src)), [.deface src t1path], none)
  else if deid = some "quickshear" then
    (fsInsert fs t1path (.nifti ("defaced:" ++ src)), [.deface src t1path], none)
  else if deid = some "mridefacer" then
    let out := t1path ++ "/" ++ basename src
    (fsInsert fs out (.nifti ("defaced:" ++ src)), [.deface src out], none)
  else if deid = some "deepdefacer" then
    (fs, [], some (.typeError
      "run_deepdefacer() takes 2 positional arguments but 3 were given"))
  else (fs, [], none)

/-- Modelled from the Python standard library: among the attributes
run_deeid.py dereferences on the `os` module, `isfile` does not exist —
it lives in `os.path` (deeid.py:139 spells the same check
`os.path.isfile`); run_deeid.py:215 calls `os.isfile(T2_file)`. -/
def osModuleHasIsfile : Bool := false

/-- The T2 block and `create_graphics` call of run_deeid.py:209-233.
`dfv` is irrelevant here (run_deeid keeps no defaced-path local).
The final `create_graphics(..., t2w=T2_file)` call evaluates the local
`T2_file`, which is bound only inside the `if deface_t2w:` block. -/
def runDeeidT2AndGraphics (cfg : Config) (bids_dir subject : String)
    (t1 : BFile) (fs : FS) : FS × List Event × Option PyExn :=
  if cfg.deface_t2w then
    -- T2_entities / T2_file = layout.build_path (run_deeid.py:211-213)
    let T2_file := t1.t2path
    if osModuleHasIsfile then
      -- unreachable: the intended existence check, then T2 processing
      -- (extraction on T2_file, relocation, run_t2w_deface), then graphics
      match fsLookup fs T2_file with
      | none =>
          let (fs1, ev1) := create_graphics subject fs
          (fs1, [Event.warnNoT2 T2_file t1.path] ++ ev1, none)
      | some _ =>
          let bm2 := bids_dir ++ "/sourcedata/bidsonym/sub-" ++ subject ++ "/" ++
            nameUpToLast ".nii" T2_file ++ "_brainmask_desc-nondeid.nii.gz"
          match deeidExtract cfg T2_file bm2 fs with
          | (fs1, ev1, _, some e) => (fs1, ev1, some e)
          | (fs1, ev1, _, none) =>
              match move_file fs1 T2_file t1.t2qpath with
              | .error e => (fs1, ev1, some e)
              | .ok fs2 =>
                  let fs3 := fsInsert fs2 T2_file
                    (.nifti ("defaced:" ++ t1.t2qpath ++ ":mask:" ++ t1.path))
                  let ev3 := ev1 ++ [Event.relocate T2_file t1.t2qpath,
                    Event.deface t1.t2qpath T2_file]
                  let (fs4, ev4) := create_graphics subject fs3
                  (fs4, ev3 ++ ev4, none)
    else
      (fs, [], some (.attributeError "module 'os' has no attribute 'isfile'"))
  else
    -- run_deeid.py:233 evaluates `T2_file`, never bound on this path
    (fs, [], some (.nameError "T2_file"))

/-- Processing of one T1w file in `run_deeid` (run_deeid.py:177-233):
brain extraction on the canonical pre-relocation path, `check_meta_data`,
relocation, optional metadata deletion, defacing, then the T2 block and
graphics.  (`T1_file = t1w.relpath()` at run_deeid.py:179 is an external
accessor used both as a path and for `.entities`; it is modelled by the
record's canonical path and session fields.) -/
def runDeeidT1File (cfg : Config) (jsons : List (String × String))
    (bids_dir subject : String) (t1 : BFile) (fs : FS) :
    FS × List Event × Option PyExn :=
  let T1_file := t1.path
  let bm := bids_dir ++ "/sourcedata/bidsonym/sub-" ++ subject ++ "/" ++
    nameUpToLast ".nii" T1_file ++ "_brainmask_desc-nondeid.nii.gz"
  match deeidExtract cfg T1_file bm fs with
  | (fs1, ev1, _, some e) => (fs1, ev1, some e)
  | (fs1, ev1, _, none) =>
      let ev2 := ev1 ++ [Event.checkMeta subject]
      match move_file fs1 T1_file t1.qpath with
      | .error e => (fs1, ev2, some e)
      | .ok fs2 =>
          let source_t1w := t1.qpath
          let ev3 := ev2 ++ [Event.relocate T1_file t1.qpath]
          match (if cfg.del_meta ≠ [] then del_meta_data cfg.del_meta jsons fs2
                 else (fs2, [], none)) with
          | (fs3, ev4, some e) => (fs3, ev3 ++ ev4, some e)
          | (fs3, ev4, none) =>
              match runDeeidDefaceDispatch cfg.deid source_t1w T1_file fs3 with
              | (fs4, ev5, some e) => (fs4, ev3 ++ ev4 ++ ev5, some e)
              | (fs4, ev5, none) =>
                  match runDeeidT2AndGraphics cfg bids_dir subject t1 fs4 with
                  | (fs5, ev6, ex) => (fs5, ev3 ++ ev4 ++ ev5 ++ ev6, ex)

/-- The per-subject T1w loop of `run_deeid`, threading the function-level
`session` local (bound at run_deeid.py:181-184 on every file iteration,
read again by `clean_up_files(..., session=session)` at
run_deeid.py:238). -/
def runDeeidFiles (cfg : Config) (jsons : List (String × String))
    (bids_dir subject : String) :
    List BFile → Option (Option String) → FS →
      FS × List Event × Option (Option String) × Option PyExn
  | [], sessVar, fs => (fs, [], sessVar, none)
  | t1 :: rest, sessVar, fs =>
      let _ := sessVar
      let sessVar' := some t1.session
      match runDeeidT1File cfg jsons bids_dir subject t1 fs with
      | (fs1, ev1, some e) => (fs1, ev1, sessVar', some e)
      | (fs1, ev1, none) =>
          match runDeeidFiles cfg jsons bids_dir subject rest sessVar' fs1 with
          | (fs2, ev2, sv2, ex) => (fs2, ev1 ++ ev2, sv2, ex)

/-- One subject in `run_deeid` (run_deeid.py:173-238): the file loop,
then `rename_non_deid`, then `clean_up_files` — the latter reads the
`session` local, a `NameError` if no file iteration ever bound it. -/
def runDeeidSubject (cfg : Config) (ds : Dataset) (bids_dir subject : String)
    (sessVar : Option (Option String)) (fs : FS) :
    FS × List Event × Option (Option String) × Option PyExn :=
  match runDeeidFiles cfg (ds.jsonOf subject) bids_dir subject
      (ds.t1wOf subject) sessVar fs with
  | (fs1, ev1, sv1, some e) => (fs1, ev1, sv1, some e)
  | (fs1, ev1, sv1, none) =>
      let fs2 := rename_non_deid bids_dir subject fs1
      match sv1 with
      | none => (fs2, ev1, sv1, some (.nameError "session"))
      | some ses => (clean_up_files bids_dir subject ses fs2, ev1, sv1, none)

/-- The subject loop of `run_deeid`. -/
def runDeeidSubjects (cfg : Config) (ds : Dataset) (bids_dir : String) :
    List String → Option (Option String) → FS →
      FS × List Event × Option PyExn
  | [], _, fs => (fs, [], none)
  | s :: rest, sessVar, fs =>
      match runDeeidSubject cfg ds bids_dir s sessVar fs with
      | (fs1, ev1, _, some e) => (fs1, ev1, some e)
      | (fs1, ev1, sv1, none) =>
          match runDeeidSubjects cfg ds bids_dir rest sv1 fs1 with
          | (fs2, ev2, ex) => (fs2, ev1 ++ ev2, ex)

/-- `bidsonym.run_deeid.run_deeid` (run_deeid.py:114-238): brainextraction
checks, then (unless skipped) `validate_input_dir` — whose participant
check may raise and whose `bids-validator` subprocess only reads — then
the analysis-level checks, participant resolution, and the subject
loop. -/
def run_deeid (cfg : Config) (ds : Dataset) (bids_dir : String) (fs : FS) :
    FS × List Event × Option PyExn :=
  if cfg.brainextraction = some "bet" ∧ cfg.bet_frac = none then
    (fs, [], some (.valueError
      ("If you want to use BET for pre-defacing brain extraction," ++
       "please provide a Frac value. For example: --bet_frac 0.5")))
  else if cfg.brainextraction = none then
    (fs, [], some (.genericExc
      ("For post defacing quality it is required to run a form of " ++
       "brainextraction on the non-deindentified data. Thus please either " ++
       "indicate bet (--brainextration bet) or nobrainer " ++
       "(--brainextraction nobrainer).")))
  else
    match (if cfg.skip_bids_validation then none
           else validateInputDirCheck cfg.participant_label ds.subjects) with
    | some e => (fs, [], some e)
    | none =>
        if cfg.analysis_level = "participant" ∧ cfg.participant_label = [] then
          (fs, [], some (.valueError "No participant label indicated. Please do so."))
        else if cfg.analysis_level = "group" ∧ cfg.participant_label ≠ [] then
          (fs, [], some (.valueError
            "Cannot set participant_label for group level analysis."))
        else
          match runDeeidResolveSubjects cfg.participant_label ds.subjects with
          | .error e => (fs, [], some e)
          | .ok subjects_to_analyze =>
              runDeeidSubjects cfg ds bids_dir subjects_to_analyze none fs

/-! ## Concrete fixtures -/

/-- A T1w file of subject 01 (session-less), with the externally built
quarantine and sibling-T2w paths. -/
def t1X : BFile :=
  { path := "/b/s1/t1.nii.gz", qpath := "/b/q/t1.nii.gz",
    t2path := "/b/s1/t2.nii.gz", t2qpath := "/b/q/t2.nii.gz",
    session := none }

/-- A valid baseline configuration: participant level, subject 01,
pydeface, BET with frac 0.5, no T2w defacing, validation skipped. -/
def cfgX : Config :=
  { analysis_level := "participant", participant_label := ["01"],
    deid := some "pydeface", del_meta := [], brainextraction := some "bet",
    bet_frac := some "0.5", deface_t2w := false,
    skip_bids_validation := true, check_meta := [] }

/-- A dataset state holding only the original T1w of subject 01. -/
def fsX : FS := [("/b/s1/t1.nii.gz", FileData.nifti "origT1")]

/-- Helper lemma: a `move_file` whose source is present. -/
theorem move_file_ok_of_lookup (fs : FS) (src dst : String) (c : FileData)
    (h : fsLookup fs src = some c) :
    move_file fs src dst = .ok (fsInsert (fsErase fs src) dst c) := by
  simp [move_file, h]

/-! ### Claim C2 -/

/-- Is this event a relocation? -/
def isRelocateEv : Event → Bool
  | .relocate _ _ => true
  | _ => false

/-- Is this event a brain extraction? -/
def isExtractEv : Event → Bool
  | .extract _ _ => true
  | _ => false

/-- The event trace of `deeid` processing the fixture T1w file. -/
def deeidTraceX : List Event := (deeidT1File cfgX t1X fsX).2.1

/-- C2, counterexample.  In the `deeid` subject pipeline, processing the
fixture file puts the relocation at trace position 0 and brain extraction
at position 1: extraction does NOT precede relocation, refuting the
claimed strict order "brain extraction, then relocation" (deeid.py:99
relocates before deeid.py:107-114 extracts). -/
theorem deeid_extract_not_before_relocate_counterexample :
    deeidTraceX.findIdx isRelocateEv = 0
    ∧ deeidTraceX.findIdx isExtractEv = 1
    ∧ ¬ deeidTraceX.findIdx isExtractEv < deeidTraceX.findIdx isRelocateEv := by
  refine ⟨by rfl, by rfl, ?_⟩
  rw [show deeidTraceX.findIdx isExtractEv = 1 from rfl,
      show deeidTraceX.findIdx isRelocateEv = 0 from rfl]
  exact Nat.not_lt_zero 1

/-- C2, amended.  For any configuration using pydeface and BET (with a
frac value) and no T2w defacing, `deeid` processes a present T1w file in
the strict order: relocation of the original to quarantine, then brain
extraction on the quarantined original content (byte-identical to the
pre-relocation image), then defacing writing to the canonical path, then
report generation (overlay, then preview) — and the file completes
without error. -/
theorem deeid_t1_event_order (cfg : Config) (t1 : BFile) (fs : FS)
    (f : String) (d : FileData)
    (hdeid : cfg.deid = some "pydeface")
    (hbe : cfg.brainextraction = some "bet")
    (hfrac : cfg.bet_frac = some f)
    (ht2 : cfg.deface_t2w = false)
    (hfs : fsLookup fs t1.path = some d) :
    (deeidT1File cfg t1 fs).2.1
      = [Event.relocate t1.path t1.qpath,
         Event.extract t1.qpath (stripExts t1.qpath ++ "_brainmask.nii.gz"),
         Event.deface t1.qpath t1.path,
         Event.overlay ((splitext t1.path).1 ++ ".png"),
         Event.gifReport t1.path]
    ∧ (deeidT1File cfg t1 fs).2.2 = none := by
  have hmv := move_file_ok_of_lookup fs t1.path t1.qpath d hfs
  constructor <;>
    simp [deeidT1File, hmv, deeidExtract, hbe, hfrac, deeidDeface, hdeid,
      deeidT2Block, ht2]

/-- Witness for `deeid_t1_event_order` at the fixture input. -/
theorem deeid_t1_event_order_witness :
    (deeidT1File cfgX t1X fsX).2.1
      = [Event.relocate t1X.path t1X.qpath,
         Event.extract t1X.qpath (stripExts t1X.qpath ++ "_brainmask.nii.gz"),
         Event.deface t1X.qpath t1X.path,
         Event.overlay ((splitext t1X.path).1 ++ ".png"),
         Event.gifReport t1X.path]
    ∧ (deeidT1File cfgX t1X fsX).2.2 = none :=
  deeid_t1_event_order cfgX t1X fsX "0.5" (.nifti "origT1")
    rfl rfl rfl rfl rfl

/-! ### Claim C3 -/

/-- An empty dataset index knowing subjects 01 and 02. -/
def ds99 : Dataset :=
  { subjects := ["01", "02"], t1wOf := fun _ => [], jsonOf := fun _ => [] }

/-- Requesting the unknown participant "99". -/
def cfg99 : Config := { cfgX with participant_label := ["99"] }

/-- C3, code bug.  Requesting unknown participant "99" against a dataset
knowing only 01 and 02 raises nothing: `deeid` completes with no error
(and quietly "processes" subject 99), because the check at deeid.py:70
iterates the still-empty `subjects_to_analyze` instead of
`participant_label`, so `missing_participants` is always empty; the
run_deeid variant has the same dead check plus a missing assignment, so
it silently analyses nobody.  Only `validate_input_dir` (not called by
`deeid`) performs the intended enumerated failure. -/
theorem deeid_unknown_participant_no_error :
    deeid cfg99 ds99 [] = ([], [], none)
    ∧ deeidResolveSubjects ["99"] ["01", "02"] = .ok ["99"]
    ∧ runDeeidResolveSubjects ["99"] ["01", "02"] = .ok [] := by
  refine ⟨rfl, rfl, rfl⟩

/-! ### Claim C4 -/

/-- A dataset where subject 01 owns the fixture T1w file. -/
def dsB : Dataset :=
  { subjects := ["01", "02"],
    t1wOf := fun s => if s = "01" then [t1X] else [],
    jsonOf := fun _ => [] }

/-- Known participant 01 requested explicitly, with BIDS validation on. -/
def cfgB : Config := { cfgX with skip_bids_validation := false }

/-- C4, code bug.  With the known label 01 requested explicitly,
`run_deeid` processes no subject at all: the filesystem (holding 01's
T1w) is returned untouched with no events and no error, because
run_deeid.py:159-168 never assigns `subjects_to_analyze =
participant_label` (the assignment exists only in deeid.py:79,
which resolves the set correctly). -/
theorem run_deeid_explicit_labels_processes_none :
    run_deeid cfgB dsB "/b" fsX = (fsX, [], none)
    ∧ runDeeidResolveSubjects ["01"] ["01", "02"] = .ok []
    ∧ deeidResolveSubjects ["01"] ["01", "02"] = .ok ["01"]
    ∧ deeidResolveSubjects [] ["01", "02"] = .ok ["01", "02"] := by
  refine ⟨rfl, rfl, rfl, rfl⟩

/-! ### Claim C7 -/

/-- The four invalid configurations of the claim: `bet` without a
threshold, no brain-extraction method, participant level with an empty
participant set, group level with a participant set. -/
def invalidConfig (cfg : Config) : Prop :=
  (cfg.brainextraction = some "bet" ∧ cfg.bet_frac = none)
  ∨ cfg.brainextraction = none
  ∨ (cfg.analysis_level = "participant" ∧ cfg.participant_label = [])
  ∨ (cfg.analysis_level = "group" ∧ cfg.participant_label ≠ [])

/-- C7.  On every invalid configuration, both pipeline variants raise an
error while the filesystem is returned exactly as given and no pipeline
event has occurred: validation fails fast before any file is moved,
edited or created. -/
theorem validation_fails_fast (cfg : Config) (ds : Dataset)
    (bids_dir : String) (fs : FS) (h : invalidConfig cfg) :
    ((deeid cfg ds fs).1 = fs ∧ (deeid cfg ds fs).2.1 = []
      ∧ (deeid cfg ds fs).2.2.isSome)
    ∧ ((run_deeid cfg ds bids_dir fs).1 = fs
      ∧ (run_deeid cfg ds bids_dir fs).2.1 = []
      ∧ (run_deeid cfg ds bids_dir fs).2.2.isSome) := by
  have hvs : (deeidValidate cfg).isSome := by
    unfold deeidValidate
    rcases h with ⟨h1, h2⟩ | h1 | ⟨h1, h2⟩ | ⟨h1, h2⟩
    · simp [h1, h2]
    · simp [h1]
    · by_cases hA : cfg.brainextraction = some "bet" ∧ cfg.bet_frac = none
      · simp [hA]
      · rw [if_neg hA]
        by_cases hB : cfg.brainextraction = none
        · simp [hB]
        · rw [if_neg hB]; simp [h1, h2]
    · by_cases hA : cfg.brainextraction = some "bet" ∧ cfg.bet_frac = none
      · simp [hA]
      · rw [if_neg hA]
        by_cases hB : cfg.brainextraction = none
        · simp [hB]
        · rw [if_neg hB]
          by_cases hC : cfg.analysis_level = "participant"
              ∧ cfg.participant_label = []
          · exact (h2 hC.2).elim
          · rw [if_neg hC]; simp [h1, h2]
  constructor
  · rcases hval : deeidValidate cfg with _ | e
    · rw [hval] at hvs; simp at hvs
    · unfold deeid; rw [hval]; simp
  · unfold run_deeid
    rcases h with ⟨h1, h2⟩ | h1 | ⟨h1, h2⟩ | ⟨h1, h2⟩
    · simp [h1, h2]
    · simp [h1]
    · by_cases hA : cfg.brainextraction = some "bet" ∧ cfg.bet_frac = none
      · simp [hA]
      · rw [if_neg hA]
        by_cases hB : cfg.brainextraction = none
        · simp [hB]
        · rw [if_neg hB]
          have hV : validateInputDirCheck cfg.participant_label ds.subjects
              = none := by
            simp [validateInputDirCheck, h2]
          have hVif : (if cfg.skip_bids_validation then none
              else validateInputDirCheck cfg.participant_label ds.subjects)
              = none := by
            cases cfg.skip_bids_validation <;> simp [hV]
          rw [hVif]
          simp [h1, h2]
    · by_cases hA : cfg.brainextraction = some "bet" ∧ cfg.bet_frac = none
      · simp [hA]
      · rw [if_neg hA]
        by_cases hB : cfg.brainextraction = none
        · simp [hB]
        · rw [if_neg hB]
          rcases hVif : (if cfg.skip_bids_validation then none
              else validateInputDirCheck cfg.participant_label ds.subjects)
              with _ | e
          · by_cases hC : cfg.analysis_level = "participant"
                ∧ cfg.participant_label = []
            · exact (h2 hC.2).elim
            · rw [if_neg hC]; simp [h1, h2]
          · simp

/-- Witness for `validation_fails_fast`: no brain-extraction method
chosen. -/
theorem validation_fails_fast_witness :
    ((deeid { cfgX with brainextraction := none } ds99 fsX).1 = fsX
      ∧ (deeid { cfgX with brainextraction := none } ds99 fsX).2.1 = []
      ∧ (deeid { cfgX with brainextraction := none } ds99 fsX).2.2.isSome)
    ∧ ((run_deeid { cfgX with brainextraction := none } ds99 "/b" fsX).1 = fsX
      ∧ (run_deeid { cfgX with brainextraction := none } ds99 "/b" fsX).2.1 = []
      ∧ (run_deeid { cfgX with brainextraction := none } ds99 "/b" fsX).2.2.isSome) :=
  validation_fails_fast { cfgX with brainextraction := none } ds99 "/b" fsX
    (Or.inr (Or.inl rfl))

/-! ### Claim C6 -/

/-- The fixture configuration with T2w defacing requested. -/
def cfgT2 : Config := { cfgX with deface_t2w := true }

/-- C6, code bug.  In the `run_deeid` variant, with T2w defacing
requested and no T2w file on disk for the subject (second conjunct), the
subject does not complete with a logged skip: processing raises
`AttributeError`, because run_deeid.py:215 spells the existence check
`os.isfile`, an attribute the `os` module does not have (deeid.py:139
spells the same check `os.path.isfile` and does skip gracefully). -/
theorem run_deeid_missing_t2_attribute_error :
    (runDeeidT1File cfgT2 [] "/b" "01" t1X fsX).2.2
      = some (.attributeError "module 'os' has no attribute 'isfile'")
    ∧ fsLookup fsX t1X.t2path = none := by
  refine ⟨rfl, rfl⟩

/-- Supporting fact (not itself a claim): the `deeid` variant does what
C6 claims — at the fixture input with T2w defacing requested and the T2w
absent from disk, the file completes with a logged warning-skip event and
no error. -/
theorem deeid_missing_t2_warn_skip :
    Event.warnNoT2 t1X.t2path t1X.path ∈ (deeidT1File cfgT2 t1X fsX).2.1
    ∧ (deeidT1File cfgT2 t1X fsX).2.2 = none
    ∧ fsLookup fsX t1X.t2path = none := by
  refine ⟨by decide, rfl, rfl⟩

/-! ### Claim C10 -/

/-- C10.  In the `run_deeid` variant, for a processed T1w file with T2w
defacing not requested (`deface_t2w = false`), the subject's processing
raises `NameError` on `T2_file` after defacing instead of completing:
run_deeid.py:233 passes `t2w=T2_file` to `create_graphics`, but the
local `T2_file` is bound only inside the skipped `if deface_t2w:` block.
The hypotheses pin the configuration to one that reaches the graphics
call (pydeface, BET with a frac value, no metadata deletion, the T1w
present, and the brainmask output path distinct from the T1w path). -/
theorem run_deeid_unbound_t2file_name_error (cfg : Config)
    (jsons : List (String × String)) (bids_dir subject : String)
    (t1 : BFile) (fs : FS) (f : String) (d : FileData)
    (hdeid : cfg.deid = some "pydeface")
    (hbe : cfg.brainextraction = some "bet")
    (hfrac : cfg.bet_frac = some f)
    (hdm : cfg.del_meta = [])
    (ht2 : cfg.deface_t2w = false)
    (hfs : fsLookup fs t1.path = some d)
    (hbm : bids_dir ++ "/sourcedata/bidsonym/sub-" ++ subject ++ "/" ++
        nameUpToLast ".nii" t1.path ++ "_brainmask_desc-nondeid.nii.gz"
      ≠ t1.path) :
    (runDeeidT1File cfg jsons bids_dir subject t1 fs).2.2
      = some (.nameError "T2_file")
    ∧ Event.deface t1.qpath t1.path
        ∈ (runDeeidT1File cfg jsons bids_dir subject t1 fs).2.1 := by
  have hl1 : fsLookup (fsInsert fs
      (bids_dir ++ "/sourcedata/bidsonym/sub-" ++ subject ++ "/" ++
        nameUpToLast ".nii" t1.path ++ "_brainmask_desc-nondeid.nii.gz")
      (.nifti ("mask:" ++ t1.path))) t1.path = some d := by
    rw [fsLookup_fsInsert_ne _ _ _ _ hbm]; exact hfs
  have hmv := move_file_ok_of_lookup _ t1.path t1.qpath d hl1
  constructor <;>
    simp [runDeeidT1File, deeidExtract, hbe, hfrac, hmv, hdm,
      runDeeidDefaceDispatch, hdeid, runDeeidT2AndGraphics, ht2]

/-- Witness for `run_deeid_unbound_t2file_name_error` at the fixture
input. -/
theorem run_deeid_unbound_t2file_name_error_witness :
    (runDeeidT1File cfgX [] "/b" "01" t1X fsX).2.2
      = some (.nameError "T2_file")
    ∧ Event.deface t1X.qpath t1X.path
        ∈ (runDeeidT1File cfgX [] "/b" "01" t1X fsX).2.1 :=
  run_deeid_unbound_t2file_name_error cfgX [] "/b" "01" t1X fsX "0.5"
    (.nifti "origT1") rfl rfl rfl rfl rfl rfl (by decide)
